import Mathlib

/-!
Shallow embedding of the event-to-action dispatch core of the job-tracker
terminal application (src/src/app.rs, src/src/action.rs and
src/src/components/{job_list,job_item,edit_job,notes_popup}.rs), together
with theorems settling the specification claims about it.

Machine integers: the Rust code uses `i8` for focus-field arithmetic and
`usize` for indices.  All values reachable in the embedded code stay far
inside the `i8` range, so `i8` arithmetic is embedded as `Int`; `usize`
arithmetic is embedded as `Nat`, with Rust's `saturating_sub` being exactly
truncated `Nat` subtraction and every unguarded `usize` subtraction in the
source occurring only under a guard that rules out underflow (noted at the
definition).  Fallible operations (`unwrap`, slice indexing) are embedded
with `Except String`.
-/

namespace JobTracker

/-- `Mode` from src/src/app.rs, including the parameterized `Popup` variant
used by src/src/components/notes_popup.rs and job_list.rs. -/
inductive Mode where
  | Home
  | EditJob
  | Popup (name : String)
deriving DecidableEq

/-- `ApplicationStatus` from src/src/database/schema.rs. -/
inductive ApplicationStatus where
  | Applied | Interviewing | Offered | Rejected | Withdrawn | Accepted
deriving DecidableEq

/-- `PositionCategory` from src/src/database/schema.rs. -/
inductive PositionCategory where
  | Engineering | Development | Support | DataScience | Analyst | Design
deriving DecidableEq

/-- `WorkType` from src/src/database/schema.rs. -/
inductive WorkType where
  | FullTime | PartTime | Internship | Contract | Temporary | Volunteer | Other
deriving DecidableEq

/-- `LocationType` from src/src/database/schema.rs. -/
inductive LocationType where
  | Remote | OnSite | Hybrid
deriving DecidableEq

/-- `Files` from src/src/database/schema.rs. -/
structure Files where
  cv : String
  coverLetter : String
  additionalDocuments : List String
deriving DecidableEq

/-- `JobApplication` from src/src/database/schema.rs. -/
structure JobApplication where
  id : Int
  companyName : String
  position : String
  positionCategory : PositionCategory
  workType : WorkType
  location : String
  locationType : LocationType
  applicationDate : String
  status : ApplicationStatus
  isActive : Bool
  notes : Option String
  contactInfo : Option String
  url : Option String
  files : Files
deriving DecidableEq

/-- `KeyCode` (crossterm): the codes matched by the components' key
handlers, with `Other` standing for every remaining code. -/
inductive KeyCode where
  | Tab | BackTab | Enter | Esc | Up | Down | Right | Left
  | Char (c : Char)
  | Other (n : Nat)
deriving DecidableEq

/-- `KeyModifiers` (crossterm): the handlers only pattern-match the exact
values `NONE`, `SHIFT` and `CONTROL`, so the bitflag set is embedded as the
values that occur. -/
inductive KeyModifiers where
  | NONE | SHIFT | CONTROL | ALT
deriving DecidableEq

/-- `KeyEventKind` (crossterm). -/
inductive KeyEventKind where
  | Press | Release | Repeat
deriving DecidableEq

/-- `KeyEvent` (crossterm), with the fields the source inspects. -/
structure KeyEvent where
  code : KeyCode
  modifiers : KeyModifiers
  kind : KeyEventKind
deriving DecidableEq

/-- `Action` from src/src/action.rs. -/
inductive Action where
  | Tick
  | Render
  | Resize (w h : Nat)
  | Suspend
  | Resume
  | Quit
  | ClearScreen
  | Error (message : String)
  | Help
  | DispatchJobSearch
  | JobResults (res : List JobApplication)
  | IndexNext
  | IndexPrevious
  | FocusNext
  | FocusPrevious
  | UnFocusField
  | ChangeMode (mode : Mode)
  | PopulateEditJobForm (job : JobApplication)
  | EnterPopup (name : String)
  | ExitPopup
  | DispatchNotesPopupData (s : String)
  | NotesPopupData (s : String)
deriving DecidableEq

/-! ## Focus cursors (src/src/components/edit_job.rs and job_item.rs) -/

/-- `Field` from src/src/components/edit_job.rs: the edit-form focus
cursor, with discriminant values `None = -1`, `Position = 0`, ...,
`Notes = 11`. -/
inductive Field where
  | None | Position | PositionCategory | CompanyName | WorkType
  | Location | LocationType | ApplicationDate | Status | ContactInfo
  | Url | Files | Notes
deriving DecidableEq

/-- The `i8` discriminant of `Field` (`self as i8` in the source). -/
def Field.toI8 : Field → Int
  | Field.None => -1
  | Field.Position => 0
  | Field.PositionCategory => 1
  | Field.CompanyName => 2
  | Field.WorkType => 3
  | Field.Location => 4
  | Field.LocationType => 5
  | Field.ApplicationDate => 6
  | Field.Status => 7
  | Field.ContactInfo => 8
  | Field.Url => 9
  | Field.Files => 10
  | Field.Notes => 11

/-- `Field::len()` from src/src/components/edit_job.rs (returns 12). -/
def Field.len : Int := 12

/-- `impl From<i8> for Field` from src/src/components/edit_job.rs: maps
-1 and every value outside 0..=11 to `Field::None`. -/
def Field.fromI8 (value : Int) : Field :=
  if value = -1 then Field.None
  else if value = 0 then Field.Position
  else if value = 1 then Field.PositionCategory
  else if value = 2 then Field.CompanyName
  else if value = 3 then Field.WorkType
  else if value = 4 then Field.Location
  else if value = 5 then Field.LocationType
  else if value = 6 then Field.ApplicationDate
  else if value = 7 then Field.Status
  else if value = 8 then Field.ContactInfo
  else if value = 9 then Field.Url
  else if value = 10 then Field.Files
  else if value = 11 then Field.Notes
  else Field.None

/-- `impl AddAssign<i8> for Field`: `*self = Field::from(*self as i8 + rhs)`.
All occurring values stay inside the `i8` range, so `Int` addition is exact. -/
def Field.addAssign (f : Field) (rhs : Int) : Field :=
  Field.fromI8 (f.toI8 + rhs)

/-- `impl SubAssign<i8> for Field`: `*self = Field::from(*self as i8 - rhs)`. -/
def Field.subAssign (f : Field) (rhs : Int) : Field :=
  Field.fromI8 (f.toI8 - rhs)

/-- The `Tab` arm of `EditJob::handle_key_event`
(src/src/components/edit_job.rs lines 186-197):
`self.focused_field += 1; if self.focused_field as i8 > Field::len() {
self.focused_field = Field::Position; }`.  The `Enter` arm (lines 210-221)
executes the same statements. -/
def editJobTab (f : Field) : Field :=
  let f1 := f.addAssign 1
  if f1.toI8 > Field.len then Field.Position else f1

/-- The `BackTab` arm of `EditJob::handle_key_event`
(src/src/components/edit_job.rs lines 198-209):
`self.focused_field -= 1; if (self.focused_field as i8) < 0_i8 {
self.focused_field = Field::from(Field::len() - 1); }`. -/
def editJobBackTab (f : Field) : Field :=
  let f1 := f.subAssign 1
  if f1.toI8 < 0 then Field.fromI8 (Field.len - 1) else f1

/-- `FocusedField` from src/src/components/job_item.rs: the job-list
per-row focus cursor, with discriminant values `None = -1`, `Status = 0`,
..., `CoverLetter = 5`. -/
inductive FocusedField where
  | None | Status | Notes | ApplicationLink | CompanyWebsite | CV | CoverLetter
deriving DecidableEq

/-- The `i8` discriminant of `FocusedField` (`self as i8` in the source). -/
def FocusedField.toI8 : FocusedField → Int
  | FocusedField.None => -1
  | FocusedField.Status => 0
  | FocusedField.Notes => 1
  | FocusedField.ApplicationLink => 2
  | FocusedField.CompanyWebsite => 3
  | FocusedField.CV => 4
  | FocusedField.CoverLetter => 5

/-- `FocusedField::len()` from src/src/components/job_item.rs (returns 7). -/
def FocusedField.len : Int := 7

/-- `impl From<i8> for FocusedField` from src/src/components/job_item.rs:
maps every value outside 0..=5 (including -1) to `FocusedField::None`. -/
def FocusedField.fromI8 (value : Int) : FocusedField :=
  if value = 0 then FocusedField.Status
  else if value = 1 then FocusedField.Notes
  else if value = 2 then FocusedField.ApplicationLink
  else if value = 3 then FocusedField.CompanyWebsite
  else if value = 4 then FocusedField.CV
  else if value = 5 then FocusedField.CoverLetter
  else FocusedField.None

/-- `impl AddAssign<i8> for FocusedField`. -/
def FocusedField.addAssign (f : FocusedField) (rhs : Int) : FocusedField :=
  FocusedField.fromI8 (f.toI8 + rhs)

/-- `impl SubAssign<i8> for FocusedField`. -/
def FocusedField.subAssign (f : FocusedField) (rhs : Int) : FocusedField :=
  FocusedField.fromI8 (f.toI8 - rhs)

/-- The `Right` arm of `JobList::handle_key_event`
(src/src/components/job_list.rs lines 235-239):
`if (self.state.selected_job_state.focused_field as i8) < 4 {
self.state.selected_job_state.focused_field += 1; }`. -/
def jobListRight (f : FocusedField) : FocusedField :=
  if f.toI8 < 4 then f.addAssign 1 else f

/-- The `Left` arm of `JobList::handle_key_event`
(src/src/components/job_list.rs lines 240-244):
`if self.state.selected_job_state.focused_field as i8 > 0 {
self.state.selected_job_state.focused_field -= 1; }`. -/
def jobListLeft (f : FocusedField) : FocusedField :=
  if f.toI8 > 0 then f.subAssign 1 else f

/-! ## Geometry (ratatui `Rect`/`Position`) and the job-list row layout -/

/-- `Position` (ratatui): a terminal cell coordinate. -/
structure Position where
  x : Nat
  y : Nat
deriving DecidableEq

/-- `Rect` (ratatui). -/
structure Rect where
  x : Nat
  y : Nat
  width : Nat
  height : Nat
deriving DecidableEq

/-- `Rect::contains` (ratatui): the position lies in the half-open box
`[x, x+width) × [y, y+height)`. -/
def Rect.contains (r : Rect) (p : Position) : Bool :=
  decide (r.x ≤ p.x ∧ p.x < r.x + r.width ∧ r.y ≤ p.y ∧ p.y < r.y + r.height)

/-- `JobList::layout(area).split(area)` (src/src/components/job_list.rs
lines 48-55): a vertical split of `area` into `area.height / 8` rows, each
a `Length(8)` constraint.  The split is performed by the external layout
collaborator (ratatui); for areas whose height is an exact multiple of 8
— the only areas the theorems instantiate — the constraints tile the area
exactly and the rows are the ones below. -/
def jobListLayoutRows (area : Rect) : List Rect :=
  (List.range (area.height / 8)).map fun i =>
    { x := area.x, y := area.y + 8 * i, width := area.width, height := 8 }

/-! ## JobList (src/src/components/job_list.rs) -/

/-- `JobListingState` from src/src/components/job_item.rs. -/
structure JobListingState where
  focused : Bool
  focusedField : FocusedField
deriving DecidableEq

/-- `JobListState` from src/src/components/job_list.rs. -/
structure JobListState where
  visibleStartIndex : Nat
  selectedIndex : Nat
  selectedJobState : JobListingState
deriving DecidableEq

/-- `JobList` from src/src/components/job_list.rs.  `commandTx` records
whether `command_tx` is `Some` (the action sender is wired); the sender
itself is the external channel, and actions sent on it are returned by the
handlers below as a list. -/
structure JobListComp where
  commandTx : Bool
  jobs : List JobApplication
  state : JobListState
  area : Option Rect
  notesPopupVisible : Bool
deriving DecidableEq

/-- `JobList::get_visible_jobs` (src/src/components/job_list.rs lines
59-81), parameterized by the values the source reads: `num_visible =
(area.height / 8) as usize`, `selected = self.state.selected_index`,
`jobs_len = self.jobs.len()`.  In the branch `selected >= num_visible / 2`
the `usize` subtraction `selected + 1 - num_visible / 2` cannot underflow,
so `Nat` subtraction is exact; `jobs_len.saturating_sub(num_visible)` is
exactly `Nat` subtraction. -/
def getVisibleJobs (jobsLen numVisible selected : Nat) : Nat :=
  if jobsLen > numVisible then
    if numVisible = 1 then
      selected
    else if selected ≥ numVisible / 2 then
      min (selected + 1 - numVisible / 2) (jobsLen - numVisible)
    else 0
  else 0

/-- `JobList::get_visible_jobs` applied to an area, as called by the
handlers: `num_visible = (area.height / 8) as usize`. -/
def JobListComp.getVisibleJobsArea (c : JobListComp) (area : Rect) : Nat :=
  getVisibleJobs c.jobs.length (area.height / 8) c.state.selectedIndex

/-- `JobList::handle_key_event` (src/src/components/job_list.rs lines
188-248).  Returns the new component state, the actions sent on
`command_tx` during the call (in send order), and the `Option<Action>`
returned to the caller (always `None` in the source). -/
def JobListComp.handleKeyEvent (c : JobListComp) (key : KeyEvent) :
    JobListComp × List Action × Option Action :=
  match key.code with
  | KeyCode.Tab =>
      if c.state.selectedIndex + 1 < c.jobs.length then
        ({ c with state := { c.state with selectedIndex := c.state.selectedIndex + 1 } },
         [], none)
      else (c, [], none)
  | KeyCode.BackTab =>
      if c.state.selectedIndex > 0 then
        ({ c with state := { c.state with selectedIndex := c.state.selectedIndex - 1 } },
         [], none)
      else (c, [], none)
  | KeyCode.Enter =>
      (c, if c.commandTx then [Action.ChangeMode Mode.EditJob] else [], none)
  | KeyCode.Esc =>
      (c,
       if c.commandTx then
         [Action.ChangeMode (Mode.Popup "notes_popup"),
          Action.DispatchNotesPopupData "This is a test note popup."]
       else [], none)
  | KeyCode.Up =>
      if c.state.selectedIndex > 0 then
        let c1 := { c with state :=
          { c.state with selectedIndex := c.state.selectedIndex - 1 } }
        match c1.area with
        | some area =>
            ({ c1 with state :=
               { c1.state with visibleStartIndex := c1.getVisibleJobsArea area } },
             [], none)
        | none => (c1, [], none)
      else (c, [], none)
  | KeyCode.Down =>
      if c.state.selectedIndex + 1 < c.jobs.length then
        let c1 := { c with state :=
          { c.state with selectedIndex := c.state.selectedIndex + 1 } }
        match c1.area with
        | some area =>
            ({ c1 with state :=
               { c1.state with visibleStartIndex := c1.getVisibleJobsArea area } },
             [], none)
        | none => (c1, [], none)
      else (c, [], none)
  | KeyCode.Right =>
      let sjs := c.state.selectedJobState
      let sjs1 := { sjs with focusedField := jobListRight sjs.focusedField }
      ({ c with state := { c.state with selectedJobState := sjs1 } }, [], none)
  | KeyCode.Left =>
      let sjs := c.state.selectedJobState
      let sjs1 := { sjs with focusedField := jobListLeft sjs.focusedField }
      ({ c with state := { c.state with selectedJobState := sjs1 } }, [], none)
  | _ => (c, [], none)

/-- Folding `JobList::handle_key_event` over a sequence of key events,
keeping the component state. -/
def JobListComp.applyKeys (c : JobListComp) (keys : List KeyEvent) : JobListComp :=
  keys.foldl (fun c k => (c.handleKeyEvent k).1) c

/-- `JobList::update` (src/src/components/job_list.rs lines 91-116).
Before matching on the action, the source sends `DispatchJobSearch` on
`self.command_tx.clone().unwrap()` whenever `self.jobs.len() == 0`
(the `unwrap` aborts when the sender is not wired); the
`NotesPopupData` arm calls `self.jobs.get_mut(0).unwrap()`, which aborts
when the jobs list is empty.  Aborts are embedded as `Except.error`. -/
def JobListComp.update (c : JobListComp) (a : Action) :
    Except String (JobListComp × List Action × Option Action) :=
  let sentE : Except String (List Action) :=
    if c.jobs.length = 0 then
      if c.commandTx then Except.ok [Action.DispatchJobSearch]
      else Except.error "called Option::unwrap on a None value"
    else Except.ok []
  match sentE with
  | Except.error e => Except.error e
  | Except.ok sent =>
      match a with
      | Action.Tick => Except.ok (c, sent, none)
      | Action.Render => Except.ok (c, sent, none)
      | Action.JobResults res => Except.ok ({ c with jobs := res }, sent, none)
      | Action.NotesPopupData str =>
          match c.jobs with
          | [] => Except.error "called Option::unwrap on a None value"
          | j :: rest =>
              Except.ok ({ c with notesPopupVisible := false,
                                  jobs := { j with notes := some str } :: rest },
                         sent, none)
      | _ => Except.ok (c, sent, none)

/-- The `MouseEventKind::Moved` arm of `JobList::handle_mouse_event`
(src/src/components/job_list.rs lines 277-293).  The source computes
`regions = self.layout(self.area.unwrap()).split(self.area.unwrap())` and,
for every region containing the cursor, sets
`selected_index = visible_start_index + i` and then evaluates
`self.jobs[self.state.selected_index]` with no bounds check — embedded as
an `Except.error` when the index is out of range.  The subsequent call
`JobItem::handle_mouse_moved_in_region` only updates
`selected_job_state` from the item's inner sub-region geometry; it is
passed in as the parameter `inRegion`, so every theorem below holds for
any such update. -/
def JobListComp.handleMouseMoved
    (inRegion : JobApplication → Rect → Position → JobListingState → JobListingState)
    (c : JobListComp) (pos : Position) :
    Except String JobListComp :=
  match c.area with
  | none => Except.error "called Option::unwrap on a None value"
  | some area =>
      (jobListLayoutRows area).enum.foldlM
        (fun c p =>
          if p.2.contains pos then
            let sel := c.state.visibleStartIndex + p.1
            let c1 := { c with state := { c.state with selectedIndex := sel } }
            match c1.jobs.get? sel with
            | some job =>
                let sjs1 := inRegion job p.2 pos c1.state.selectedJobState
                pure { c1 with state := { c1.state with selectedJobState := sjs1 } }
            | none =>
                Except.error "index out of bounds: jobs[selected_index]"
          else pure c)
        c

/-! ## EditJob and NotesPopup update handlers -/

/-- `EditJob` from src/src/components/edit_job.rs: the fields `update`
touches.  The per-field text areas are presentation state owned by the
external text-area widget; `update_focused` only restyles them, and its
having-run-since-the-last-focus-change is exactly the `focused_updated`
flag. -/
structure EditJobComp where
  job : JobApplication
  focusedField : Field
  focusedUpdated : Bool
deriving DecidableEq

/-- `EditJob::update` (src/src/components/edit_job.rs lines 230-249):
`Render` runs `update_focused` and sets `focused_updated := true` when the
flag is unset; `PopulateEditJobForm` stores the job; every other action
falls through to `_ => {}`.  Always returns `Ok(None)`. -/
def EditJobComp.update (c : EditJobComp) (a : Action) :
    EditJobComp × Option Action :=
  match a with
  | Action.Render =>
      if !c.focusedUpdated then ({ c with focusedUpdated := true }, none)
      else (c, none)
  | Action.PopulateEditJobForm job => ({ c with job := job }, none)
  | _ => (c, none)

/-- `NotesPopup` from src/src/components/notes_popup.rs: the fields
`update` touches. -/
structure NotesPopupComp where
  commandTx : Bool
  notes : String
deriving DecidableEq

/-- `NotesPopup::update` (src/src/components/notes_popup.rs lines 37-48):
`DispatchNotesPopupData` stores the notes string; every other action falls
through to `_ => {}`.  Always returns `Ok(None)`. -/
def NotesPopupComp.update (c : NotesPopupComp) (a : Action) :
    NotesPopupComp × Option Action :=
  match a with
  | Action.DispatchNotesPopupData notes => ({ c with notes := notes }, none)
  | _ => (c, none)

/-! ## App loop (src/src/app.rs) -/

/-- The `App` fields mutated by the drain step `App::handle_actions`
(src/src/app.rs lines 16-29): the current mode, the visible-component
index set, the quit/suspend flags and the key-sequence buffer. -/
structure AppState where
  mode : Mode
  currentModeComponents : List Nat
  shouldQuit : Bool
  shouldSuspend : Bool
  lastTickKeyEvents : List KeyEvent
deriving DecidableEq

/-- The visible-component index recomputation shared by `App::new`
(src/src/app.rs lines 48-53) and the `ChangeMode` arm of
`App::handle_actions` (lines 183-191):
`for (idx, component) in components.iter().enumerate() { if
component.mode() == mode { push(idx) } }`.  `componentModes` lists each
registered component's `mode()` in registration order. -/
def computeModeComponents (componentModes : List Mode) (mode : Mode) : List Nat :=
  (componentModes.enum.filter fun p => decide (p.2 = mode)).map Prod.fst

/-- `App::new` (src/src/app.rs lines 39-68): starts in `Mode::default()`
(= `Mode::Home`) with the visible set computed for it, flags cleared and
an empty key buffer. -/
def App.new (componentModes : List Mode) : AppState :=
  { mode := Mode.Home,
    currentModeComponents := computeModeComponents componentModes Mode.Home,
    shouldQuit := false,
    shouldSuspend := false,
    lastTickKeyEvents := [] }

/-- The loop-global effect of one action in `App::handle_actions`
(src/src/app.rs lines 167-202).  `ClearScreen`, `Resize`, `Render` and
`DispatchJobSearch` act on the external terminal or only send further
actions; none of them touches the fields of the state. -/
def applyGlobalEffect (componentModes : List Mode) (s : AppState) (a : Action) :
    AppState :=
  match a with
  | Action.Tick => { s with lastTickKeyEvents := [] }
  | Action.Quit => { s with shouldQuit := true }
  | Action.Suspend => { s with shouldSuspend := true }
  | Action.Resume => { s with shouldSuspend := false }
  | Action.ChangeMode newMode =>
      { s with mode := newMode,
               currentModeComponents := computeModeComponents componentModes newMode }
  | _ => s

/-- The drain step `App::handle_actions` over a queue of actions, applied
in FIFO order. -/
def handleActions (componentModes : List Mode) (s : AppState) (acts : List Action) :
    AppState :=
  acts.foldl (applyGlobalEffect componentModes) s

/-- The mode set by the last `ChangeMode` in a sequence, or the initial
mode if none occurs. -/
def lastChangeMode (initial : Mode) (acts : List Action) : Mode :=
  acts.foldl (fun m a => match a with | Action.ChangeMode m2 => m2 | _ => m) initial

/-- `App::handle_key_event` (src/src/app.rs lines 144-165): look up the
single-key binding `keymap.get(&vec![key])`; if bound, send that action
and leave `last_tick_key_events` untouched; otherwise push the key and
look up the whole buffer as a multi-key binding.  The keymap is the opaque
lookup table from the config collaborator.  Returns the new buffer and the
actions sent. -/
def appHandleKeyEvent (keymap : List KeyEvent → Option Action)
    (lastTickKeyEvents : List KeyEvent) (key : KeyEvent) :
    List KeyEvent × List Action :=
  match keymap [key] with
  | some action => (lastTickKeyEvents, [action])
  | none =>
      let events := lastTickKeyEvents ++ [key]
      match keymap events with
      | some action => (events, [action])
      | none => (events, [])

/-- `App::render` (src/src/app.rs lines 210-222): for every index in
`current_mode_components`, in order, call the component's `draw`; when it
fails, send `Error("Failed to draw: ...")` on the action channel and keep
going.  `drawResult i` is the outcome of component `i`'s draw call.
Returns the indices whose draw was invoked (in call order) and the error
actions enqueued (in send order). -/
def App.render (currentModeComponents : List Nat)
    (drawResult : Nat → Except String Unit) : List Nat × List Action :=
  match currentModeComponents with
  | [] => ([], [])
  | c :: rest =>
      let tail := App.render rest drawResult
      match drawResult c with
      | Except.ok _ => (c :: tail.1, tail.2)
      | Except.error err =>
          (c :: tail.1, Action.Error ("Failed to draw: " ++ err) :: tail.2)

/-! ## Concrete sample values used to instantiate theorems -/

/-- `JobApplication::test(0)` from src/src/database/schema.rs. -/
def sampleJob : JobApplication :=
  { id := 0, companyName := "Acme Inc 0", position := "Backend Developer 0",
    positionCategory := PositionCategory.Engineering, workType := WorkType.FullTime,
    location := "San Francisco, CA", locationType := LocationType.Remote,
    applicationDate := "2024-05-20", status := ApplicationStatus.Interviewing,
    isActive := true, notes := some "Interview scheduled for next week.",
    contactInfo := some "recruiter@acme.com", url := some "https://acme.com/jobs/123",
    files := { cv := "acme_cv.pdf", coverLetter := "acme_cover.pdf",
               additionalDocuments := ["portfolio.pdf"] } }

/-- A plain `a` key press. -/
def keyA : KeyEvent :=
  { code := KeyCode.Char 'a', modifiers := KeyModifiers.NONE, kind := KeyEventKind.Press }

/-- A plain `b` key press. -/
def keyB : KeyEvent :=
  { code := KeyCode.Char 'b', modifiers := KeyModifiers.NONE, kind := KeyEventKind.Press }

/-- A `Right`-arrow key press. -/
def keyRight : KeyEvent :=
  { code := KeyCode.Right, modifiers := KeyModifiers.NONE, kind := KeyEventKind.Press }

/-- A two-binding keymap in the shape of the spec's example:
the single key `a` is bound, and the sequence `a b` is bound. -/
def sampleKeymap : List KeyEvent → Option Action := fun ks =>
  if ks = [keyA] then some Action.Quit
  else if ks = [keyA, keyB] then some Action.Help
  else none

/-- A job list with one fetched job, the layout area of the last draw
(height 16, so two laid-out row regions), and the initial cursor state. -/
def sampleJobList : JobListComp :=
  { commandTx := true,
    jobs := [sampleJob],
    state := { visibleStartIndex := 0, selectedIndex := 0,
               selectedJobState := { focused := false,
                                     focusedField := FocusedField.None } },
    area := some { x := 0, y := 0, width := 40, height := 16 },
    notesPopupVisible := false }

/-- A job list whose jobs have not been delivered yet (`jobs` empty), with
the action sender wired. -/
def emptyJobList : JobListComp :=
  { commandTx := true,
    jobs := [],
    state := { visibleStartIndex := 0, selectedIndex := 0,
               selectedJobState := { focused := false,
                                     focusedField := FocusedField.None } },
    area := none,
    notesPopupVisible := false }

/-! ## Theorems -/

/-- Helper for C1: the drain step keeps the visible-set invariant and
tracks the last `ChangeMode` of the processed sequence. -/
theorem handleActions_mode_inv (componentModes : List Mode) (acts : List Action) :
    ∀ s : AppState,
      s.currentModeComponents = computeModeComponents componentModes s.mode →
      (handleActions componentModes s acts).mode = lastChangeMode s.mode acts ∧
      (handleActions componentModes s acts).currentModeComponents
        = computeModeComponents componentModes (lastChangeMode s.mode acts) := by
  induction acts with
  | nil => exact fun s h => ⟨rfl, h⟩
  | cons a rest ih =>
      intro s h
      have h1 : (applyGlobalEffect componentModes s a).currentModeComponents
          = computeModeComponents componentModes
              (applyGlobalEffect componentModes s a).mode := by
        cases a <;> simp [applyGlobalEffect, h]
      have hm : lastChangeMode s.mode (a :: rest)
          = lastChangeMode (applyGlobalEffect componentModes s a).mode rest := by
        cases a <;> simp [lastChangeMode, applyGlobalEffect]
      have h2 := ih (applyGlobalEffect componentModes s a) h1
      have hfold : handleActions componentModes s (a :: rest)
          = handleActions componentModes (applyGlobalEffect componentModes s a) rest := rfl
      rw [hfold, hm]
      exact h2

/-- C1: after the drain step processes any sequence of actions, the
current mode is the one set by the last `ChangeMode` (or the initial mode
if none), the visible-component set is exactly the registered components
whose owning mode equals that mode in registration order (the
`computeModeComponents` filter), and no action other than `ChangeMode`
alters the mode or the visible set. -/
theorem c1_drain_visible_set (componentModes : List Mode) (acts : List Action)
    (s : AppState)
    (hinv : s.currentModeComponents = computeModeComponents componentModes s.mode) :
    (handleActions componentModes s acts).mode = lastChangeMode s.mode acts ∧
    (handleActions componentModes s acts).currentModeComponents
      = computeModeComponents componentModes (lastChangeMode s.mode acts) ∧
    ∀ a : Action, (∀ m, a ≠ Action.ChangeMode m) →
      (applyGlobalEffect componentModes s a).mode = s.mode ∧
      (applyGlobalEffect componentModes s a).currentModeComponents
        = s.currentModeComponents := by
  refine ⟨(handleActions_mode_inv componentModes acts s hinv).1,
          (handleActions_mode_inv componentModes acts s hinv).2, ?_⟩
  intro a ha
  cases a
  case ChangeMode m => exact absurd rfl (ha m)
  all_goals exact ⟨rfl, rfl⟩

/-- Witness for C1: the app starts with components owning
`[Home, Home, EditJob]`; after draining `[Tick, ChangeMode EditJob,
Render]` the mode is `EditJob` and only component 2 is visible. -/
theorem c1_drain_visible_set_witness :
    (handleActions [Mode.Home, Mode.Home, Mode.EditJob]
        (App.new [Mode.Home, Mode.Home, Mode.EditJob])
        [Action.Tick, Action.ChangeMode Mode.EditJob, Action.Render]).mode
      = Mode.EditJob ∧
    (handleActions [Mode.Home, Mode.Home, Mode.EditJob]
        (App.new [Mode.Home, Mode.Home, Mode.EditJob])
        [Action.Tick, Action.ChangeMode Mode.EditJob, Action.Render]).currentModeComponents
      = [2] := by
  have h := c1_drain_visible_set [Mode.Home, Mode.Home, Mode.EditJob]
      [Action.Tick, Action.ChangeMode Mode.EditJob, Action.Render]
      (App.new [Mode.Home, Mode.Home, Mode.EditJob]) rfl
  exact ⟨by rw [h.1]; rfl, by rw [h.2.1]; rfl⟩

/-- C2: the claim that increment never produces the `None` sentinel fails
on the code: the `Tab` arm of `EditJob::handle_key_event` maps the largest
proper field `Notes` (index 11) to `Field::None` (discriminant -1, outside
`[0, 12)`), because `From<i8>` already collapses 12 to `None` before the
dead guard `> Field::len()` is consulted. -/
theorem c2_increment_overflow_bug :
    editJobTab Field.Notes = Field.None ∧
    (editJobTab Field.Notes).toI8 = -1 ∧
    Field.Notes.toI8 = Field.len - 1 := by decide

/-- C3: the claim that advance composed 12 times is the identity (and 13
advances from index 0 end at index 1) fails on the code: the `Tab` cycle
has length 13 because the `None` sentinel is interposed after `Notes`, so
12 advances from `Position` end at `None` and 13 advances end back at
`Position` (index 0), not index 1. -/
theorem c3_twelve_advances_bug :
    editJobTab^[12] Field.Position = Field.None ∧
    editJobTab^[13] Field.Position = Field.Position ∧
    Field.Position.toI8 = 0 := by decide

/-- C4 counterexample: at the job-list cursor value `CV` (4), advance
(`Right`) saturates and retreat (`Left`) still decrements, so
advance-then-retreat lands on `CompanyWebsite`, not `CV`. -/
theorem c4_advance_retreat_counterexample :
    jobListRight FocusedField.CV = FocusedField.CV ∧
    jobListLeft (jobListRight FocusedField.CV) = FocusedField.CompanyWebsite ∧
    FocusedField.CompanyWebsite ≠ FocusedField.CV := by decide

/-- C4 amended: advance-then-retreat restores the original focus value
for every edit-form field other than the `None` sentinel, and for every
job-list field whose discriminant lies in `[0, 4)` (below the `Right`
saturation bound). -/
theorem c4_advance_retreat_identity (f : Field) (g : FocusedField)
    (hf : f ≠ Field.None) (hg0 : 0 ≤ g.toI8) (hg4 : g.toI8 < 4) :
    editJobBackTab (editJobTab f) = f ∧ jobListLeft (jobListRight g) = g := by
  revert hf hg0 hg4
  cases f <;> cases g <;> decide

/-- Witness for C4: instantiated at `Position` and `Status`. -/
theorem c4_advance_retreat_identity_witness :
    editJobBackTab (editJobTab Field.Position) = Field.Position ∧
    jobListLeft (jobListRight FocusedField.Status) = FocusedField.Status :=
  c4_advance_retreat_identity Field.Position FocusedField.Status
    (by decide) (by decide) (by decide)

/-- C5: a single-key binding is emitted immediately with the accumulation
buffer left unchanged, whatever sequence is pending; the whole-buffer
multi-key lookup is consulted only when no single-key binding exists, in
which case the key is appended first. -/
theorem c5_single_key_priority (keymap : List KeyEvent → Option Action)
    (buffer : List KeyEvent) (key : KeyEvent) :
    (∀ a, keymap [key] = some a →
        appHandleKeyEvent keymap buffer key = (buffer, [a])) ∧
    (keymap [key] = none →
        appHandleKeyEvent keymap buffer key
          = (buffer ++ [key], (keymap (buffer ++ [key])).toList)) := by
  constructor
  · intro a ha
    simp [appHandleKeyEvent, ha]
  · intro ha
    simp only [appHandleKeyEvent, ha]
    cases hb : keymap (buffer ++ [key]) <;> simp [hb, Option.toList]

/-- Witness for C5: with bindings `{[a] ↦ Quit, [a, b] ↦ Help}` and the
unmatched key `b` pending in the buffer, pressing `a` yields `Quit`
immediately and the buffer still holds `[b]`. -/
theorem c5_single_key_priority_witness :
    appHandleKeyEvent sampleKeymap [keyB] keyA = ([keyB], [Action.Quit]) :=
  (c5_single_key_priority sampleKeymap [keyB] keyA).1 Action.Quit (by decide)

/-- C6 counterexample: a component receiving an unrecognized Action is
claimed to emit nothing, but `JobList::update` with an empty jobs list
sends `DispatchJobSearch` on its action channel before even matching the
action — here on receiving `Action::Help`, which it does not recognize. -/
theorem c6_unrecognized_action_counterexample :
    emptyJobList.update Action.Help
      = Except.ok (emptyJobList, [Action.DispatchJobSearch], none) ∧
    [Action.DispatchJobSearch] ≠ ([] : List Action) :=
  ⟨rfl, by decide⟩

/-- C6 amended: `EditJob` and `NotesPopup` leave their state unchanged
and return no action on every unrecognized variant; `JobList` does too,
except that whenever its jobs list is empty at the time of the call it
additionally sends `DispatchJobSearch` (and sends nothing when the list
is non-empty). -/
theorem c6_unrecognized_noop :
    (∀ (cE : EditJobComp) (a : Action),
      a ≠ Action.Render → (∀ j, a ≠ Action.PopulateEditJobForm j) →
      cE.update a = (cE, none)) ∧
    (∀ (cN : NotesPopupComp) (a : Action),
      (∀ s, a ≠ Action.DispatchNotesPopupData s) →
      cN.update a = (cN, none)) ∧
    (∀ (cJ : JobListComp) (a : Action),
      (∀ r, a ≠ Action.JobResults r) → (∀ s, a ≠ Action.NotesPopupData s) →
      (cJ.jobs ≠ [] → cJ.update a = Except.ok (cJ, [], none)) ∧
      (cJ.jobs = [] → cJ.commandTx = true →
        cJ.update a = Except.ok (cJ, [Action.DispatchJobSearch], none))) := by
  refine ⟨?_, ?_, ?_⟩
  · intro cE a hR hP
    cases a <;> first
      | rfl
      | exact absurd rfl hR
      | exact absurd rfl (hP _)
  · intro cN a hD
    cases a <;> first
      | rfl
      | exact absurd rfl (hD _)
  · intro cJ a hJ hN
    constructor
    · intro hne
      have hlen : ¬ cJ.jobs.length = 0 := by simpa using hne
      cases a <;> first
        | exact absurd rfl (hJ _)
        | exact absurd rfl (hN _)
        | simp [JobListComp.update, hlen]
    · intro hnil htx
      cases a <;> first
        | exact absurd rfl (hJ _)
        | exact absurd rfl (hN _)
        | simp [JobListComp.update, hnil, htx]

/-- Witness for C6 amended: each component instantiated at an Action
another component recognizes but it does not — `EditJob` receiving
`JobResults`, `NotesPopup` receiving `Render`, `JobList` receiving
`PopulateEditJobForm` (non-empty jobs), and the empty-jobs `JobList`
emission on `Help`. -/
theorem c6_unrecognized_noop_witness :
    EditJobComp.update
        { job := sampleJob, focusedField := Field.Position, focusedUpdated := false }
        (Action.JobResults [sampleJob])
      = ({ job := sampleJob, focusedField := Field.Position, focusedUpdated := false },
         none) ∧
    NotesPopupComp.update { commandTx := true, notes := "" } Action.Render
      = ({ commandTx := true, notes := "" }, none) ∧
    sampleJobList.update (Action.PopulateEditJobForm sampleJob)
      = Except.ok (sampleJobList, [], none) ∧
    emptyJobList.update Action.Help
      = Except.ok (emptyJobList, [Action.DispatchJobSearch], none) := by
  refine ⟨?_, ?_, ?_, ?_⟩
  · exact c6_unrecognized_noop.1
      { job := sampleJob, focusedField := Field.Position, focusedUpdated := false }
      (Action.JobResults [sampleJob]) (by simp) (fun j => by simp)
  · exact c6_unrecognized_noop.2.1 { commandTx := true, notes := "" }
      Action.Render (fun s => by simp)
  · exact (c6_unrecognized_noop.2.2 sampleJobList
      (Action.PopulateEditJobForm sampleJob)
      (fun r => by simp) (fun s => by simp)).1 (by decide)
  · exact (c6_unrecognized_noop.2.2 emptyJobList Action.Help
      (fun r => by simp) (fun s => by simp)).2 (by decide) (by decide)

/-- C7: the recomputed window start of the scrollable job list keeps the
selection visible and never runs past either end: with at least one
visible row and a valid selection, if the jobs outnumber the rows the
start lies in `[0, L - V]` and the selection lies in the window
`[start, start + V)`; otherwise the start is 0. -/
theorem c7_scroll_window (jobsLen numVisible selected : Nat)
    (hV : 1 ≤ numVisible) (hs : selected < jobsLen) :
    (jobsLen ≤ numVisible → getVisibleJobs jobsLen numVisible selected = 0) ∧
    (numVisible < jobsLen →
      getVisibleJobs jobsLen numVisible selected ≤ jobsLen - numVisible ∧
      getVisibleJobs jobsLen numVisible selected ≤ selected ∧
      selected < getVisibleJobs jobsLen numVisible selected + numVisible) := by
  unfold getVisibleJobs
  split_ifs <;> constructor <;> intro h <;> omega

/-- Witness for C7: five jobs, two visible rows, selection 3; the window
start stays within bounds and the window contains the selection. -/
theorem c7_scroll_window_witness :
    getVisibleJobs 5 2 3 ≤ 5 - 2 ∧ getVisibleJobs 5 2 3 ≤ 3 ∧
    3 < getVisibleJobs 5 2 3 + 2 :=
  (c7_scroll_window 5 2 3 (by decide) (by decide)).2 (by decide)

/-- C8: the render pass invokes every visible component's draw in order,
regardless of failures, and each failing draw contributes exactly one
`Error("Failed to draw: ...")` action to the channel, in order. -/
theorem c8_render_best_effort (visible : List Nat)
    (drawResult : Nat → Except String Unit) :
    (App.render visible drawResult).1 = visible ∧
    (App.render visible drawResult).2
      = visible.filterMap (fun c =>
          match drawResult c with
          | Except.ok _ => none
          | Except.error err => some (Action.Error ("Failed to draw: " ++ err))) := by
  induction visible with
  | nil => exact ⟨rfl, rfl⟩
  | cons c rest ih =>
      constructor
      · simp only [App.render]
        cases hd : drawResult c <;> simp [ih.1]
      · simp only [App.render, List.filterMap_cons]
        cases hd : drawResult c <;> simp [hd, ih.2]

/-- Helper for C9: one `JobList::handle_key_event` call never moves the
per-row focused field onto `CoverLetter` when it was not already there:
`Right` saturates below it (guard `< 4`) and `Left` at `Status` is
guarded. -/
theorem jobListKeyStep_not_coverLetter (c : JobListComp) (k : KeyEvent)
    (h : c.state.selectedJobState.focusedField ≠ FocusedField.CoverLetter) :
    ((c.handleKeyEvent k).1).state.selectedJobState.focusedField
      ≠ FocusedField.CoverLetter := by
  have key : ∀ f : FocusedField, f ≠ FocusedField.CoverLetter →
      jobListRight f ≠ FocusedField.CoverLetter ∧
      jobListLeft f ≠ FocusedField.CoverLetter := by
    intro f
    cases f <;> decide
  obtain ⟨cd, m, kd⟩ := k
  cases cd <;>
    simp only [JobListComp.handleKeyEvent] <;>
    (repeat' split) <;>
    simp_all [(key _ h).1, (key _ h).2]

/-- C9: starting from any per-row focus value other than `CoverLetter`
(i.e. any of `{None, Status, Notes, ApplicationLink, CompanyWebsite,
CV}`), no sequence of key events handled by the job list ever reaches
`CoverLetter`; moreover `Left` at `Status` stays at `Status` and `Right`
is a no-op at and above discriminant 4. -/
theorem c9_focused_field_saturates :
    (∀ (keys : List KeyEvent) (c : JobListComp),
      c.state.selectedJobState.focusedField ≠ FocusedField.CoverLetter →
      (c.applyKeys keys).state.selectedJobState.focusedField
        ≠ FocusedField.CoverLetter) ∧
    jobListLeft FocusedField.Status = FocusedField.Status ∧
    (∀ f : FocusedField, 4 ≤ f.toI8 → jobListRight f = f) := by
  refine ⟨?_, by decide, by intro f; cases f <;> decide⟩
  intro keys
  induction keys with
  | nil => exact fun c h => h
  | cons k ks ih =>
      intro c h
      exact ih ((c.handleKeyEvent k).1) (jobListKeyStep_not_coverLetter c k h)

/-- Witness for C9: from the initial state (`None`), two `Right` presses
and further input leave the focused field short of `CoverLetter`. -/
theorem c9_focused_field_saturates_witness :
    ((sampleJobList.applyKeys
        [keyRight, keyRight, keyRight, keyRight, keyRight, keyRight,
         keyRight]).state.selectedJobState.focusedField)
      ≠ FocusedField.CoverLetter :=
  c9_focused_field_saturates.1
    [keyRight, keyRight, keyRight, keyRight, keyRight, keyRight, keyRight]
    sampleJobList (by decide)

/-- C10: with one fetched job but an area laid out into two row regions,
a mouse-move into the second region makes the `Moved` arm set
`selected_index = visible_start_index + 1 = 1` and then index
`jobs[1]` in a vector of length 1 — the unguarded indexing aborts,
whatever the per-item sub-region focus update does. -/
theorem c10_mouse_moved_out_of_bounds :
    ∀ inRegion : JobApplication → Rect → Position → JobListingState → JobListingState,
      JobListComp.handleMouseMoved inRegion sampleJobList { x := 1, y := 9 }
        = Except.error "index out of bounds: jobs[selected_index]" := by
  intro inRegion
  rfl

end JobTracker
